import Mathlib

/-!
Shallow embedding of `src/app.py` (an HTTP service wrapping the ffmpeg/ffprobe
command-line tools) and proofs about the claims concerning it.

Modelling conventions:
* Uploaded files and produced artifacts are modelled as `Upload` records
  (declared filename plus raw bytes, the bytes represented as `String`).
* Each handler of the Python class `VideoProcessor` becomes a Lean function.
  The outside world (the results of `subprocess.run`, the bytes read back from
  produced files, the parsed contents of files the external tool wrote) is
  passed in explicitly as oracle arguments, since the external toolkit is an
  opaque dependency.
* Every handler returns its `Outcome` (normal value or propagated Python
  exception) together with a trace of filesystem/process `Effect`s, in order.
  The Python `with tempfile.TemporaryDirectory()` block is embedded as the
  `withTempDir` combinator: its body's effects are bracketed by creation and
  unconditional removal of the directory, which is exactly the context-manager
  semantics (`__exit__` runs on normal return and on exceptions alike).
* Machine reals: the Python code divides and rounds frame-rate fractions and
  timestamps using floats; the embedding computes them exactly over `ℚ`.
* Paths are kept relative to the request's scoped temporary directory.
-/

/-- An uploaded file: declared filename and raw content bytes. -/
structure Upload where
  filename : String
  content : String
deriving DecidableEq, Repr

/-- Result of one external `subprocess.run` invocation: exit status and the
captured stdout/stderr text. -/
structure ProcOut where
  exitCode : ℕ
  stdout : String
  stderr : String
deriving DecidableEq, Repr

/-- The Python exceptions that can escape or be raised by the handlers in
`app.py`.  `httpException s d` is FastAPI's `HTTPException(status_code=s,
detail=d)`; the others are ordinary uncaught Python exceptions. -/
inductive PyExc where
  | httpException (status : ℕ) (detail : String)
  | jsonDecodeError
  | indexError
  | keyError
  | zeroDivisionError
  | valueError
  | attributeError
  | typeError
deriving DecidableEq, Repr

/-- JSON values, as returned by `json.loads` / read back from `ffprobe`'s JSON
output.  Numbers are restricted to integers (the fields this service touches
are integral); see `pyJsonLoads` for the parsed subset. -/
inductive JVal where
  | null
  | bool (b : Bool)
  | num (n : ℤ)
  | str (s : String)
  | arr (xs : List JVal)
  | obj (kvs : List (String × JVal))

/-- A single ffprobe stream object: a JSON dictionary, embedded as an
association list.  The empty list is Python's falsy empty dict. -/
abbrev StreamObj := List (String × JVal)

/-- The flat metadata record built by `get_video_specs` (lines 123-131 of
`app.py`).  All fields except `fps` come from `video_stream.get(...)`, whose
result is `None` when the key is absent, hence `Option JVal`. -/
structure Metadata where
  format : Option JVal
  size : Option JVal
  fps : ℤ
  width : Option JVal
  height : Option JVal
  codec : Option JVal
  bitrate : Option JVal

/-- What a handler invocation produces: a binary body, a JSON record, or a
Python exception propagating out of the handler (HTTPException included). -/
inductive Outcome where
  | okBytes (body : String)
  | okJson (m : Metadata)
  | exc (e : PyExc)

/-- Observable effects of a handler, in program order. -/
inductive Effect where
  | mkTempDir
  | mkDir (path : String)
  | writeFile (path : String) (content : String)
  | runProc (args : List String)
  | removeDirTree
deriving DecidableEq, Repr

/-- HTTP status the FastAPI layer sends for a handler outcome: 200 on a normal
return, the carried status for an `HTTPException`, and a generic 500 for any
other uncaught exception. -/
def statusOf : Outcome → ℕ
  | .okBytes _ => 200
  | .okJson _ => 200
  | .exc (.httpException s _) => s
  | .exc _ => 500

/-- The error detail text carried by the response, when there is one.  Only an
`HTTPException` carries a detail string; other uncaught exceptions yield a
generic error body. -/
def detailOf : Outcome → Option String
  | .exc (.httpException _ d) => some d
  | _ => none

/-- Whether the request's scoped temporary directory still exists after the
trace has run: the last create/remove event decides. -/
def dirExistsAfter (tr : List Effect) : Bool :=
  tr.foldl (fun b e =>
    match e with
    | .mkTempDir => true
    | .removeDirTree => false
    | _ => b) false

/-- The argument lists of all subprocesses launched during the trace. -/
def invocationsOf (tr : List Effect) : List (List String) :=
  tr.filterMap (fun e =>
    match e with
    | .runProc args => some args
    | _ => none)

/-- The (path, content) pairs of all files written during the trace. -/
def stagedWrites (tr : List Effect) : List (String × String) :=
  tr.filterMap (fun e =>
    match e with
    | .writeFile p c => some (p, c)
    | _ => none)

/-- Embedding of `with tempfile.TemporaryDirectory() as temp_dir:` — the
body's effects are bracketed by creation and unconditional removal of the
directory; exceptions in the body propagate after the removal. -/
def withTempDir (body : Outcome × List Effect) : Outcome × List Effect :=
  (body.1, Effect.mkTempDir :: (body.2 ++ [Effect.removeDirTree]))

/-- A single ASCII apostrophe, used inside ffmpeg argument strings. -/
def sglq : String := String.singleton (Char.ofNat 39)

/-- ASCII left brace. -/
def lbrace : Char := Char.ofNat 123

/-- ASCII right brace. -/
def rbrace : Char := Char.ofNat 125

/-- Numeric value of a decimal digit character, `none` otherwise. -/
def digitVal (c : Char) : Option ℕ :=
  if c.isDigit then some (c.toNat - 48) else none

/-- Accumulating decimal parse of a digit list; fails on a non-digit. -/
def parseNatCore : List Char → ℕ → Option ℕ
  | [], acc => some acc
  | c :: cs, acc =>
    match digitVal c with
    | some d => parseNatCore cs (acc * 10 + d)
    | none => none

/-- Embedding of Python `int(s)` for the strings this service feeds it:
an optional minus sign followed by one or more decimal digits. -/
def pyIntParse (s : String) : Option ℤ :=
  match s.data with
  | [] => none
  | '-' :: [] => none
  | '-' :: cs => (parseNatCore cs 0).map (fun n => -(n : ℤ))
  | cs => (parseNatCore cs 0).map (fun n => (n : ℤ))

/-- Fueled accumulator for the decimal digits of a natural number, most
significant first.  Fuel `n + 1` always suffices. -/
def natDigitsAux : ℕ → ℕ → List Char → List Char
  | 0, _, acc => acc
  | fuel + 1, n, acc =>
    if n < 10 then Char.ofNat (48 + n) :: acc
    else natDigitsAux fuel (n / 10) (Char.ofNat (48 + n % 10) :: acc)

/-- Decimal digits of a natural number, most significant first. -/
def natDigits (n : ℕ) : List Char := natDigitsAux (n + 1) n []

/-- Embedding of Python `str(i)` for a nonnegative integer `i`. -/
def pyStrNat (n : ℕ) : String := String.mk (natDigits n)

/-- Embedding of Python `str.zfill(w)`: left-pad with zeros to width `w`,
keeping a leading sign character in place. -/
def pyZfill (s : String) (w : ℕ) : String :=
  if w ≤ s.length then s
  else
    match s.data with
    | [] => String.mk (List.replicate w '0')
    | c :: cs =>
      if c = '+' ∨ c = '-' then
        String.mk (c :: (List.replicate (w - s.length) '0' ++ cs))
      else
        String.mk (List.replicate (w - s.length) '0' ++ s.data)

/-- The expansion of the C format specifier `%06d` at a nonnegative argument,
as enumerated by ffmpeg's image-sequence input pattern: the decimal digits,
left-padded with zeros to a minimum width of six. -/
def sprintf06d (n : ℕ) : String :=
  String.mk (List.replicate (6 - (natDigits n).length) '0' ++ natDigits n)

/-- Staged filename of the `i`-th uploaded frame in `combine_frames_to_video`
(line 140 of `app.py`): `f"frame_{str(i).zfill(6)}.jpg"`. -/
def framePath (i : ℕ) : String := "frame_" ++ pyZfill (pyStrNat i) 6 ++ ".jpg"

/-- Fueled worker for `pySplitSlash`. -/
def pySplitAux : ℕ → List Char → List String
  | 0, cs => [String.mk (cs.takeWhile (fun c => c ≠ '/'))]
  | fuel + 1, cs =>
    match cs.dropWhile (fun c => c ≠ '/') with
    | [] => [String.mk (cs.takeWhile (fun c => c ≠ '/'))]
    | _ :: tail => String.mk (cs.takeWhile (fun c => c ≠ '/')) :: pySplitAux fuel tail

/-- Embedding of Python `s.split("/")`. -/
def pySplitSlash (s : String) : List String := pySplitAux (s.data.length + 1) s.data

/-- Embedding of Python `round` on an exact rational: nearest integer, ties to
even (the CPython float-rounding rule). -/
def pyRound (q : ℚ) : ℤ :=
  let f : ℤ := Int.fdiv q.num (q.den : ℤ)
  let r : ℚ := q - (f : ℚ)
  if r < 1 / 2 then f
  else if 1 / 2 < r then f + 1
  else if f % 2 = 0 then f else f + 1

/-- Embedding of `num, den = map(int, video_stream["r_frame_rate"].split("/"))`
(line 120 of `app.py`): a wrong number of parts or a non-integer part raises
`ValueError`. -/
def parseFraction (s : String) : Except PyExc (ℤ × ℤ) :=
  match (pySplitSlash s).mapM pyIntParse with
  | none => .error .valueError
  | some [a, b] => .ok (a, b)
  | some _ => .error .valueError

/-- Embedding of lines 120-121 of `app.py`: parse the frame-rate fraction and
compute `fps = round(num / den)`; a zero denominator raises
`ZeroDivisionError`. -/
def computeFps (s : String) : Except PyExc ℤ :=
  match parseFraction s with
  | .error e => .error e
  | .ok (num, den) =>
    if den = 0 then .error .zeroDivisionError
    else .ok (pyRound ((num : ℚ) / (den : ℚ)))

/-- Embedding of lines 120-131 of `app.py`, applied to a truthy (non-empty)
stream dictionary: the fps computation and the assembly of the metadata
record.  Bracket access to a missing key raises `KeyError`; calling `.split`
on a non-string raises `AttributeError`. -/
def specsStream (vs : StreamObj) : Outcome :=
  match vs.lookup "r_frame_rate" with
  | none => .exc .keyError
  | some (JVal.str rs) =>
    match computeFps rs with
    | .error e => .exc e
    | .ok fps =>
      .okJson ⟨vs.lookup "format_name", vs.lookup "size", fps,
        vs.lookup "width", vs.lookup "height",
        vs.lookup "codec_name", vs.lookup "bit_rate"⟩
  | some _ => .exc .attributeError

/-- Embedding of lines 115-131 of `app.py`, applied to the parsed contents of
`info.json`: `info.get("streams", [{}])[0]` (an absent "streams" key defaults
to a one-element list holding an empty dict; indexing an empty list raises
`IndexError`), the falsy-stream check, then `specsStream`. -/
def specsFromInfo (info : Option (List StreamObj)) : Outcome :=
  match info.getD [[]] with
  | [] => .exc .indexError
  | vs :: _ =>
    if vs.isEmpty then .exc (.httpException 500 "No video stream found")
    else specsStream vs

/-- Whitespace skipping for the JSON parser. -/
def skipWs : List Char → List Char
  | c :: cs => if c = ' ' ∨ c = '\n' ∨ c = '\t' ∨ c = '\r' then skipWs cs else c :: cs
  | [] => []

/-- Consume an expected literal character sequence. -/
def expectChars : List Char → List Char → Option (List Char)
  | [], cs => some cs
  | _ :: _, [] => none
  | e :: es, c :: cs => if c = e then expectChars es cs else none

/-- Body of a JSON string literal after the opening quote, up to the closing
quote.  Escape sequences are outside the parsed subset and fail. -/
def parseStrBody : List Char → List Char → Option (String × List Char)
  | [], _ => none
  | '"' :: rest, acc => some (String.mk acc.reverse, rest)
  | '\\' :: _, _ => none
  | c :: rest, acc => parseStrBody rest (c :: acc)

/-- A JSON integer literal: optional minus sign then decimal digits; a
fractional part or exponent is outside the parsed subset and fails. -/
def parseJNum (cs : List Char) : Option (JVal × List Char) :=
  match cs with
  | '-' :: cs1 =>
    match cs1.takeWhile Char.isDigit, cs1.dropWhile Char.isDigit with
    | [], _ => none
    | _, '.' :: _ => none
    | _, 'e' :: _ => none
    | _, 'E' :: _ => none
    | ds, rest => (parseNatCore ds 0).map (fun n => (JVal.num (-(n : ℤ)), rest))
  | _ =>
    match cs.takeWhile Char.isDigit, cs.dropWhile Char.isDigit with
    | [], _ => none
    | _, '.' :: _ => none
    | _, 'e' :: _ => none
    | _, 'E' :: _ => none
    | ds, rest => (parseNatCore ds 0).map (fun n => (JVal.num (n : ℤ), rest))

mutual

/-- Fueled recursive-descent parser for a JSON value (integer-number,
no-escape-string subset). -/
def parseJVal : ℕ → List Char → Option (JVal × List Char)
  | 0, _ => none
  | fuel + 1, cs =>
    match skipWs cs with
    | [] => none
    | c :: rest =>
      if c = '"' then (parseStrBody rest []).map (fun p => (JVal.str p.1, p.2))
      else if c = '[' then
        match skipWs rest with
        | ']' :: r2 => some (JVal.arr [], r2)
        | r2 => parseArrItems fuel r2 []
      else if c = lbrace then
        match skipWs rest with
        | r2 =>
          match r2 with
          | d :: r3 =>
            if d = rbrace then some (JVal.obj [], r3)
            else parseObjItems fuel r2 []
          | [] => none
      else if c = 't' then (expectChars ['r', 'u', 'e'] rest).map (fun r => (JVal.bool true, r))
      else if c = 'f' then (expectChars ['a', 'l', 's', 'e'] rest).map (fun r => (JVal.bool false, r))
      else if c = 'n' then (expectChars ['u', 'l', 'l'] rest).map (fun r => (JVal.null, r))
      else if c = '-' ∨ c.isDigit then parseJNum (c :: rest)
      else none

/-- Comma-separated JSON array elements up to the closing bracket. -/
def parseArrItems : ℕ → List Char → List JVal → Option (JVal × List Char)
  | 0, _, _ => none
  | fuel + 1, cs, acc =>
    match parseJVal fuel cs with
    | none => none
    | some (v, r) =>
      match skipWs r with
      | ',' :: r2 => parseArrItems fuel r2 (v :: acc)
      | ']' :: r2 => some (JVal.arr (v :: acc).reverse, r2)
      | _ => none

/-- Comma-separated JSON object members up to the closing brace. -/
def parseObjItems : ℕ → List Char → List (String × JVal) → Option (JVal × List Char)
  | 0, _, _ => none
  | fuel + 1, cs, acc =>
    match skipWs cs with
    | '"' :: r =>
      match parseStrBody r [] with
      | none => none
      | some (k, r2) =>
        match skipWs r2 with
        | ':' :: r3 =>
          match parseJVal fuel r3 with
          | none => none
          | some (v, r4) =>
            match skipWs r4 with
            | ',' :: r5 => parseObjItems fuel r5 ((k, v) :: acc)
            | d :: r5 =>
              if d = rbrace then some (JVal.obj ((k, v) :: acc).reverse, r5)
              else none
            | [] => none
        | _ => none
    | _ => none

end

/-- Embedding of Python `json.loads` (over the integer-number, no-escape
subset of JSON): parse one value, require only whitespace after it, and raise
`json.JSONDecodeError` on any failure. -/
def pyJsonLoads (s : String) : Except PyExc JVal :=
  match parseJVal (s.length + 1) s.data with
  | none => .error .jsonDecodeError
  | some (v, rest) =>
    match skipWs rest with
    | [] => .ok v
    | _ => .error .jsonDecodeError

/-- Embedding of Python `str.lstrip('#')`: drop all leading hash characters. -/
def pyLstripHash (s : String) : String :=
  String.mk (s.data.dropWhile (fun c => c = '#'))

/-- Embedding of Python `str(v)` as used inside the f-string of
`process_video` for scalar JSON values; interpolation of nested
arrays/objects is abbreviated (no claim depends on it). -/
def jvalToPyStr : JVal → String
  | .null => "None"
  | .bool b => if b then "True" else "False"
  | .num n => toString n
  | .str s => s
  | .arr _ => "[...]"
  | .obj _ => "..."

/-- Embedding of one iteration of the overlay loop in `process_video` (lines
196-211 of `app.py`): bracket access to a missing key raises `KeyError`,
`.lstrip` on a non-string raises `AttributeError`, and subscripting a
non-dictionary element raises `TypeError` (handled by the caller). -/
def overlayFilter (o : List (String × JVal)) : Except PyExc String :=
  match o.lookup "color" with
  | none => .error .keyError
  | some (JVal.str colorS) =>
    match o.lookup "backgroundColor" with
    | none => .error .keyError
    | some (JVal.str bgS) =>
      match o.lookup "text", o.lookup "fontSize", o.lookup "fontFamily",
            o.lookup "x", o.lookup "y" with
      | some t, some fs, some ff, some x, some y =>
        .ok ("drawtext=text=" ++ sglq ++ jvalToPyStr t ++ sglq ++
          ":fontsize=" ++ jvalToPyStr fs ++
          ":fontfile=/path/to/fonts/" ++ jvalToPyStr ff ++ ".ttf" ++
          ":x=" ++ jvalToPyStr x ++ ":y=" ++ jvalToPyStr y ++
          ":fontcolor=0x" ++ pyLstripHash colorS ++
          ":box=1:boxcolor=0x" ++ pyLstripHash bgS)
      | _, _, _, _, _ => .error .keyError
    | some _ => .error .attributeError
  | some _ => .error .attributeError

/-- The overlay loop of `process_video` over the elements of the parsed JSON
array, in order; a non-dictionary element raises `TypeError` when
subscripted. -/
def collectFilters : List JVal → Except PyExc (List String)
  | [] => .ok []
  | o :: os =>
    match o with
    | .obj kvs =>
      match overlayFilter kvs with
      | .error e => .error e
      | .ok f =>
        match collectFilters os with
        | .error e => .error e
        | .ok rest => .ok (f :: rest)
    | _ => .error .typeError

/-- Embedding of lines 195-214 of `app.py`: iterate the parsed overlays value
building one drawtext filter per overlay, then join them with commas.
Iterating a non-iterable JSON value raises `TypeError`; iterating a string or
an object subscripts its character/key elements, which also raises
`TypeError` unless there are no elements at all. -/
def buildFilters : JVal → Except PyExc String
  | .arr os =>
    match collectFilters os with
    | .error e => .error e
    | .ok fs => .ok (String.intercalate "," fs)
  | .str s => if s.isEmpty then .ok "" else .error .typeError
  | .obj kvs => if kvs.isEmpty then .ok "" else .error .typeError
  | _ => .error .typeError

/-- The ffmpeg argument list of `concatenate_videos` (lines 55-58 of
`app.py`). -/
def concatCmd : List String :=
  ["ffmpeg", "-f", "concat", "-safe", "0", "-i", "concat.txt", "-c", "copy", "output.mp4"]

/-- Contents of the concat list file written on lines 50-51 of `app.py`. -/
def concatListContent (p1 p2 : String) : String :=
  "file " ++ sglq ++ p1 ++ sglq ++ "\nfile " ++ sglq ++ p2 ++ sglq

/-- Embedding of `VideoProcessor.concatenate_videos` (lines 35-64 of
`app.py`).  `proc` is the result of the single ffmpeg invocation and
`outBytes` the produced file's contents read back on success. -/
def concatenate_videos (video1 video2 : Upload) (proc : ProcOut) (outBytes : String) :
    Outcome × List Effect :=
  withTempDir (
    let writes := [Effect.writeFile "video1.mp4" video1.content,
      Effect.writeFile "video2.mp4" video2.content,
      Effect.writeFile "concat.txt" (concatListContent "video1.mp4" "video2.mp4")]
    if proc.exitCode = 0 then
      (.okBytes outBytes, writes ++ [Effect.runProc concatCmd])
    else
      (.exc (.httpException 500 ("FFmpeg error: " ++ proc.stderr)),
        writes ++ [Effect.runProc concatCmd]))

/-- The ffmpeg argument list of `standardize_video` (lines 77-85 of
`app.py`). -/
def standardizeCmd : List String :=
  ["ffmpeg", "-i", "input.mp4", "-r", "30", "-vf", "scale=-1080:1920",
    "-c:v", "libx264", "-preset", "fast", "-crf", "23", "output.mp4"]

/-- Embedding of `VideoProcessor.standardize_video` (lines 67-90 of
`app.py`). -/
def standardize_video (video : Upload) (proc : ProcOut) (outBytes : String) :
    Outcome × List Effect :=
  withTempDir (
    let writes := [Effect.writeFile "input.mp4" video.content]
    if proc.exitCode = 0 then
      (.okBytes outBytes, writes ++ [Effect.runProc standardizeCmd])
    else
      (.exc (.httpException 500 ("FFmpeg error: " ++ proc.stderr)),
        writes ++ [Effect.runProc standardizeCmd]))

/-- The ffprobe argument list of `get_video_specs` (lines 103-110 of
`app.py`). -/
def specsCmd : List String :=
  ["ffprobe", "-v", "quiet", "-print_format", "json", "-select_streams", "v:0",
    "-show_entries",
    "stream=codec_name,width,height,r_frame_rate,bit_rate:stream_tags=:format=bit_rate,format_name,size",
    "input.mp4", "-o", "info.json"]

/-- Embedding of `VideoProcessor.get_video_specs` (lines 93-133 of `app.py`).
`info` is the parsed contents of `info.json` written by ffprobe on success:
`none` when the JSON has no "streams" key, otherwise the stream-object
list. -/
def get_video_specs (video : Upload) (proc : ProcOut) (info : Option (List StreamObj)) :
    Outcome × List Effect :=
  withTempDir (
    let writes := [Effect.writeFile "input.mp4" video.content]
    if proc.exitCode = 0 then
      (specsFromInfo info, writes ++ [Effect.runProc specsCmd])
    else
      (.exc (.httpException 500 ("FFprobe error: " ++ proc.stderr)),
        writes ++ [Effect.runProc specsCmd]))

/-- The ffmpeg argument list of `combine_frames_to_video` (lines 147-158 of
`app.py`), carrying the unvalidated `str(fps)` and the `frame_%06d.jpg`
input pattern. -/
def combineCmd (fps : ℤ) : List String :=
  ["ffmpeg", "-framerate", toString fps, "-i", "frame_%06d.jpg",
    "-c:v", "libx264", "-preset", "slow", "-crf", "18", "-pix_fmt", "yuv420p",
    "-movflags", "+faststart", "-tune", "film", "output.mp4"]

/-- Embedding of `VideoProcessor.combine_frames_to_video` (lines 136-163 of
`app.py`): stage every uploaded frame as `frame_{str(i).zfill(6)}.jpg` in
supplied order, then invoke ffmpeg on the matching pattern.  There is no
validation of `fps` or of the uploads. -/
def combine_frames_to_video (frames : List Upload) (fps : ℤ) (proc : ProcOut)
    (outBytes : String) : Outcome × List Effect :=
  withTempDir (
    let stage := frames.enum.map (fun p => Effect.writeFile (framePath p.1) p.2.content)
    if proc.exitCode = 0 then
      (.okBytes outBytes, stage ++ [Effect.runProc (combineCmd fps)])
    else
      (.exc (.httpException 500 ("FFmpeg error: " ++ proc.stderr)),
        stage ++ [Effect.runProc (combineCmd fps)]))

/-- The ffmpeg argument list of `process_video_with_overlays` (lines 176-183
of `app.py`), carrying the filter string and the unvalidated `str(fps)`. -/
def overlayCmd (filters : String) (fps : ℤ) : List String :=
  ["ffmpeg", "-i", "input.mp4", "-vf", filters, "-r", toString fps,
    "-c:v", "libx264", "-preset", "fast", "output.mp4"]

/-- Embedding of `VideoProcessor.process_video_with_overlays` (lines 166-188
of `app.py`).  There is no validation of `fps`. -/
def process_video_with_overlays (video : Upload) (filters : String) (fps : ℤ)
    (proc : ProcOut) (outBytes : String) : Outcome × List Effect :=
  withTempDir (
    let writes := [Effect.writeFile "input.mp4" video.content]
    if proc.exitCode = 0 then
      (.okBytes outBytes, writes ++ [Effect.runProc (overlayCmd filters fps)])
    else
      (.exc (.httpException 500 ("FFmpeg error: " ++ proc.stderr)),
        writes ++ [Effect.runProc (overlayCmd filters fps)]))

/-- Embedding of `VideoProcessor.process_video` (lines 191-216 of `app.py`):
parse the overlays JSON, build the drawtext filter string, then delegate.
`json.loads` runs before any temporary directory or subprocess exists, and
its `JSONDecodeError` propagates uncaught. -/
def process_video (video : Upload) (overlays : String) (fps : ℤ) (proc : ProcOut)
    (outBytes : String) : Outcome × List Effect :=
  match pyJsonLoads overlays with
  | .error e => (.exc e, [])
  | .ok v =>
    match buildFilters v with
    | .error e => (.exc e, [])
    | .ok filters => process_video_with_overlays video filters fps proc outBytes

/-- Whether a `subprocess.run` call was made with `text=True`: it determines
whether `CalledProcessError.stderr` is a Python `str` or `bytes` object. -/
inductive StderrData where
  | bytesOf (s : String)
  | strOf (s : String)
deriving DecidableEq, Repr

/-- Embedding of the `.decode()` call on `e.stderr` in the except clauses:
defined on `bytes`, but an `AttributeError` on `str` (which is what
`capture_output=True, text=True` produces). -/
def pyDecode : StderrData → Except PyExc String
  | .bytesOf s => .ok s
  | .strOf _ => .error .attributeError

/-- The ffprobe duration command of `generate_thumbnails` (lines 231-237 of
`app.py`), run with `text=True`. -/
def durationCmd : List String :=
  ["ffprobe", "-v", "error", "-show_entries", "format=duration",
    "-of", "default=noprint_wrappers=1:nokey=1", "input.mp4"]

/-- The evenly spaced sample timestamps of `generate_thumbnails` (lines
240-242 of `app.py`): `interval = duration / (num_thumbnails + 1)` and
`[interval * i for i in range(1, num_thumbnails + 1)]`. -/
def thumbnailTimestamps (duration : ℚ) (num_thumbnails : ℕ) : List ℚ :=
  let interval := duration / ((num_thumbnails : ℚ) + 1)
  (List.range' 1 num_thumbnails).map (fun i : ℕ => interval * (i : ℚ))

/-- The per-thumbnail ffmpeg argument list (lines 247-255 of `app.py`). -/
def thumbCmd (timestamp : ℚ) (i : ℕ) : List String :=
  ["ffmpeg", "-ss", toString timestamp, "-i", "input.mp4", "-vf", "scale=320:-1",
    "-vframes", "1", "-q:v", "2", "thumbnails/thumb_" ++ pyStrNat i ++ ".jpg"]

/-- The thumbnail loop of `generate_thumbnails`: one ffmpeg invocation per
timestamp, stopping at the first non-zero exit (whose stderr text is
returned). -/
def runThumbs : List ℚ → (ℕ → ProcOut) → ℕ → Option String × List Effect
  | [], _, _ => (none, [])
  | t :: ts, procs, i =>
    if (procs i).exitCode = 0 then
      let rest := runThumbs ts procs (i + 1)
      (rest.1, Effect.runProc (thumbCmd t i) :: rest.2)
    else (some (procs i).stderr, [Effect.runProc (thumbCmd t i)])

/-- Embedding of `VideoProcessor.generate_thumbnails` (lines 219-267 of
`app.py`).  `probe` is the duration ffprobe result (run with `text=True`, so
its stderr is a Python `str`); `durationVal` is the value of
`float(duration_cmd.stdout)` when that parse succeeds; `procs i` is the
result of the `i`-th thumbnail ffmpeg invocation (run without `text=True`,
so stderr is `bytes`); `zipBytes` is the zip archive assembled from the
thumbnails directory on success. -/
def generate_thumbnails (video : Upload) (num_thumbnails : ℕ) (probe : ProcOut)
    (durationVal : Option ℚ) (procs : ℕ → ProcOut) (zipBytes : String) :
    Outcome × List Effect :=
  withTempDir (
    let writes := [Effect.mkDir "thumbnails", Effect.writeFile "input.mp4" video.content]
    if probe.exitCode = 0 then
      match durationVal with
      | none => (.exc .valueError, writes ++ [Effect.runProc durationCmd])
      | some duration =>
        let ts := thumbnailTimestamps duration num_thumbnails
        match runThumbs ts procs 0 with
        | (none, tr) => (.okBytes zipBytes, writes ++ Effect.runProc durationCmd :: tr)
        | (some stderrTxt, tr) =>
          match pyDecode (.bytesOf stderrTxt) with
          | .ok s =>
            (.exc (.httpException 500 ("FFmpeg error: " ++ s)),
              writes ++ Effect.runProc durationCmd :: tr)
          | .error ex => (.exc ex, writes ++ Effect.runProc durationCmd :: tr)
    else
      match pyDecode (.strOf probe.stderr) with
      | .ok s =>
        (.exc (.httpException 500 ("FFmpeg error: " ++ s)),
          writes ++ [Effect.runProc durationCmd])
      | .error ex => (.exc ex, writes ++ [Effect.runProc durationCmd]))

/-- The `/combine-frames` endpoint (lines 284-287 of `app.py`): it takes a
list of individual uploads (not an archive) and delegates directly with no
validation. -/
def combine_frames (frames : List Upload) (fps : ℤ) (proc : ProcOut) (outBytes : String) :
    Outcome × List Effect :=
  combine_frames_to_video frames fps proc outBytes

theorem dirExistsAfter_withTempDir (b : Outcome × List Effect) :
    dirExistsAfter (withTempDir b).2 = false := by
  simp [withTempDir, dirExistsAfter, List.foldl_append]

theorem invocationsOf_withTempDir (b : Outcome × List Effect) :
    invocationsOf (withTempDir b).2 = invocationsOf b.2 := by
  simp [withTempDir, invocationsOf]

theorem invocationsOf_stage (frames : List Upload) :
    invocationsOf (frames.enum.map (fun p => Effect.writeFile (framePath p.1) p.2.content))
      = [] := by
  induction frames.enum with
  | nil => rfl
  | cons p l ih => simp only [invocationsOf, List.filterMap_cons] at ih ⊢; exact ih

/-- Claim C2: for every operation and every input, the scoped temporary
directory created for the request does not exist after the request completes,
whether the handler returns normally, the external tool exits non-zero, or an
unexpected exception is raised. -/
theorem c2_temp_dir_removed
    (v1 v2 vS vI vO vT : Upload) (pC pS pI pF pO probe : ProcOut)
    (obC obS obF obO zb ov : String)
    (info : Option (List StreamObj)) (frames : List Upload) (fpsF fpsO : ℤ)
    (n : ℕ) (dur : Option ℚ) (procs : ℕ → ProcOut) :
    dirExistsAfter (concatenate_videos v1 v2 pC obC).2 = false ∧
    dirExistsAfter (standardize_video vS pS obS).2 = false ∧
    dirExistsAfter (get_video_specs vI pI info).2 = false ∧
    dirExistsAfter (combine_frames_to_video frames fpsF pF obF).2 = false ∧
    dirExistsAfter (process_video vO ov fpsO pO obO).2 = false ∧
    dirExistsAfter (generate_thumbnails vT n probe dur procs zb).2 = false := by
  refine ⟨dirExistsAfter_withTempDir _, dirExistsAfter_withTempDir _,
    dirExistsAfter_withTempDir _, dirExistsAfter_withTempDir _, ?_,
    dirExistsAfter_withTempDir _⟩
  unfold process_video
  split
  · rfl
  · split
    · rfl
    · exact dirExistsAfter_withTempDir _

/-- Claim C1, counterexample: with `fps = 0` both the frames-to-video
operation and the overlay operation still invoke a subprocess, so the claim
that such requests are rejected without invoking any subprocess is false. -/
theorem c1_counterexample :
    ¬ invocationsOf (combine_frames_to_video [⟨"f0.jpg", "img"⟩] 0 ⟨1, "", "rate error"⟩ "").2
        = [] ∧
    ¬ invocationsOf (process_video_with_overlays ⟨"v.mp4", "vid"⟩ "" 0 ⟨1, "", "bad rate"⟩ "").2
        = [] := by
  decide

/-- Claim C1 as amended: the fps parameter is never validated; for every zero
or negative fps, the frames-to-video and overlay operations each launch
exactly one encoder subprocess whose argument list carries the unvalidated
`str(fps)` after the rate flag, and any failure comes only from that
subprocess's own exit status. -/
theorem c1_amended (frames : List Upload) (video : Upload) (filters : String)
    (p1 p2 : ProcOut) (ob1 ob2 : String) (fps : ℤ) (_hfps : fps ≤ 0) :
    invocationsOf (combine_frames_to_video frames fps p1 ob1).2 = [combineCmd fps] ∧
    invocationsOf (process_video_with_overlays video filters fps p2 ob2).2
      = [overlayCmd filters fps] ∧
    "-framerate" ∈ combineCmd fps ∧ toString fps ∈ combineCmd fps ∧
    "-r" ∈ overlayCmd filters fps ∧ toString fps ∈ overlayCmd filters fps := by
  refine ⟨?_, ?_, by simp [combineCmd], by simp [combineCmd], by simp [overlayCmd],
    by simp [overlayCmd]⟩
  · unfold combine_frames_to_video
    split <;> rw [invocationsOf_withTempDir] <;>
      simp [invocationsOf, List.filterMap_append, invocationsOf_stage]
  · unfold process_video_with_overlays
    split <;> rw [invocationsOf_withTempDir] <;> simp [invocationsOf]

theorem c1_amended_witness :
    (0 : ℤ) ≤ 0 ∧
    (invocationsOf (combine_frames_to_video [] 0 ⟨1, "", ""⟩ "").2 = [combineCmd 0] ∧
     invocationsOf (process_video_with_overlays ⟨"v.mp4", "x"⟩ "f" 0 ⟨1, "", ""⟩ "").2
       = [overlayCmd "f" 0] ∧
     "-framerate" ∈ combineCmd 0 ∧ toString (0 : ℤ) ∈ combineCmd 0 ∧
     "-r" ∈ overlayCmd "f" 0 ∧ toString (0 : ℤ) ∈ overlayCmd "f" 0) :=
  ⟨by decide, c1_amended [] ⟨"v.mp4", "x"⟩ "f" ⟨1, "", ""⟩ ⟨1, "", ""⟩ "" "" 0 (by decide)⟩

/-- Claim C4, counterexample: a single plain-text (non-archive) upload to the
frames-to-video endpoint is not rejected — a subprocess is still invoked. -/
theorem c4_counterexample :
    ¬ invocationsOf
        (combine_frames [⟨"notes.txt", "plain text, not an archive"⟩] 24 ⟨0, "", ""⟩ "out").2
        = [] := by
  decide

/-- Claim C4 as amended: the frames-to-video endpoint takes a list of
individual uploads rather than an archive and applies no validation of file
type or content; every request — archive or not — stages the uploads and
invokes the encoder subprocess exactly once. -/
theorem c4_amended (frames : List Upload) (fps : ℤ) (p : ProcOut) (ob : String) :
    invocationsOf (combine_frames frames fps p ob).2 = [combineCmd fps] := by
  unfold combine_frames combine_frames_to_video
  split <;> rw [invocationsOf_withTempDir] <;>
    simp [invocationsOf, List.filterMap_append, invocationsOf_stage]

/-- Claim C5, counterexample: an overlays parameter that is not well-formed
JSON is indeed rejected before any subprocess is launched, but it surfaces as
a generic 500 (an uncaught `JSONDecodeError`), not as a 4xx-equivalent
client-error response — so the claim as stated is false. -/
theorem c5_counterexample :
    invocationsOf (process_video ⟨"v.mp4", "vid"⟩ "nope" 30 ⟨0, "", ""⟩ "out").2 = [] ∧
    statusOf (process_video ⟨"v.mp4", "vid"⟩ "nope" 30 ⟨0, "", ""⟩ "out").1 = 500 ∧
    ¬ (400 ≤ statusOf (process_video ⟨"v.mp4", "vid"⟩ "nope" 30 ⟨0, "", ""⟩ "out").1 ∧
       statusOf (process_video ⟨"v.mp4", "vid"⟩ "nope" 30 ⟨0, "", ""⟩ "out").1 < 500) := by
  decide

/-- Claim C5 as amended: for every overlay-processing request whose overlays
parameter fails to parse as JSON, the request terminates before any
subprocess is launched, but the failure surfaces as a 500-equivalent response
(the `JSONDecodeError` propagates uncaught), not a 4xx-equivalent one. -/
theorem c5_amended (video : Upload) (overlays : String) (fps : ℤ) (p : ProcOut)
    (ob : String) (e : PyExc) (h : pyJsonLoads overlays = .error e) :
    (process_video video overlays fps p ob).1 = Outcome.exc e ∧
    invocationsOf (process_video video overlays fps p ob).2 = [] ∧
    statusOf (process_video video overlays fps p ob).1 = 500 := by
  have he : e = PyExc.jsonDecodeError := by
    unfold pyJsonLoads at h
    split at h
    · injection h with h1; exact h1.symm
    · split at h
      · exact Except.noConfusion h
      · injection h with h1; exact h1.symm
  unfold process_video
  rw [h]
  subst he
  exact ⟨rfl, rfl, rfl⟩

theorem c5_amended_witness :
    pyJsonLoads "[overlay" = Except.error PyExc.jsonDecodeError ∧
    ((process_video ⟨"v.mp4", "vid"⟩ "[overlay" 24 ⟨0, "", ""⟩ "out").1
        = Outcome.exc PyExc.jsonDecodeError ∧
     invocationsOf (process_video ⟨"v.mp4", "vid"⟩ "[overlay" 24 ⟨0, "", ""⟩ "out").2 = [] ∧
     statusOf (process_video ⟨"v.mp4", "vid"⟩ "[overlay" 24 ⟨0, "", ""⟩ "out").1 = 500) :=
  ⟨rfl, c5_amended ⟨"v.mp4", "vid"⟩ "[overlay" 24 ⟨0, "", ""⟩ "out" PyExc.jsonDecodeError rfl⟩

/-- Claim C3 (code bug in `generate_thumbnails`): when the duration ffprobe
command — run with `text=True`, so `e.stderr` is a Python `str` — exits
non-zero, the except clause's `e.stderr.decode()` raises `AttributeError`
instead of producing the intended `HTTPException`; the response is a generic
500 whose body does not contain the tool's stderr text.  By contrast, the
same non-zero exit in `concatenate_videos` (whose stderr is `bytes`) does
produce the 500 response carrying the stderr text. -/
theorem c3_thumbnail_probe_divergence :
    (generate_thumbnails ⟨"clip.mp4", "vid"⟩ 3 ⟨1, "", "probe stderr text"⟩ none
        (fun _ => ⟨0, "", ""⟩) "").1 = Outcome.exc PyExc.attributeError ∧
    statusOf (generate_thumbnails ⟨"clip.mp4", "vid"⟩ 3 ⟨1, "", "probe stderr text"⟩ none
        (fun _ => ⟨0, "", ""⟩) "").1 = 500 ∧
    detailOf (generate_thumbnails ⟨"clip.mp4", "vid"⟩ 3 ⟨1, "", "probe stderr text"⟩ none
        (fun _ => ⟨0, "", ""⟩) "").1 = none ∧
    detailOf (concatenate_videos ⟨"a.mp4", "x"⟩ ⟨"b.mp4", "y"⟩ ⟨1, "", "boom"⟩ "").1
      = some ("FFmpeg error: " ++ "boom") :=
  ⟨rfl, rfl, rfl, rfl⟩

theorem pyRound_intCast (z : ℤ) : pyRound (z : ℚ) = z := by
  unfold pyRound
  rw [Rat.num_intCast, Rat.den_intCast]
  norm_num [Int.fdiv_one]

theorem parseFraction_error (s : String) (e : PyExc)
    (h : parseFraction s = .error e) : e = PyExc.valueError := by
  unfold parseFraction at h
  split at h
  · injection h with h1; exact h1.symm
  · exact Except.noConfusion h
  · injection h with h1; exact h1.symm

theorem computeFps_error (s : String) (e : PyExc)
    (h : computeFps s = .error e) :
    e = PyExc.valueError ∨ e = PyExc.zeroDivisionError := by
  unfold computeFps at h
  cases hp : parseFraction s with
  | error e1 =>
    rw [hp] at h
    injection h with h1
    exact Or.inl (h1 ▸ parseFraction_error s e1 hp)
  | ok p =>
    rw [hp] at h
    by_cases hd : p.2 = 0
    · simp only [hd, if_true] at h
      injection h with h1
      exact Or.inr h1.symm
    · simp only [hd, if_false] at h
      exact Except.noConfusion h

theorem computeFps_30_1 : computeFps "30/1" = Except.ok 30 := by
  show Except.ok (pyRound (((30 : ℤ) : ℚ) / ((1 : ℤ) : ℚ))) = Except.ok 30
  have h1 : (((30 : ℤ) : ℚ) / ((1 : ℤ) : ℚ)) = ((30 : ℤ) : ℚ) := by norm_num
  rw [h1, pyRound_intCast]

/-- Claim C6: a probe result whose `r_frame_rate` is the fraction string
"30/1" yields `fps = 30` in the metadata record of the inspect operation, and
in general the fps computation of `get_video_specs` is the rounded quotient
(Python `round`, ties to even) of the fraction's parsed numerator and
denominator. -/
theorem c6_fps_rounded_quotient (s : String) (num den : ℤ)
    (h : parseFraction s = .ok (num, den)) (hden : den ≠ 0) :
    computeFps "30/1" = Except.ok 30 ∧
    specsFromInfo (some [[("r_frame_rate", JVal.str "30/1")]])
      = Outcome.okJson ⟨none, none, 30, none, none, none, none⟩ ∧
    computeFps s = Except.ok (pyRound ((num : ℚ) / (den : ℚ))) := by
  refine ⟨computeFps_30_1, ?_, ?_⟩
  · show (match computeFps "30/1" with
      | .error e => Outcome.exc e
      | .ok fps => Outcome.okJson ⟨none, none, fps, none, none, none, none⟩)
      = Outcome.okJson ⟨none, none, 30, none, none, none, none⟩
    rw [computeFps_30_1]
  · unfold computeFps
    rw [h]
    simp [hden]

theorem c6_fps_rounded_quotient_witness :
    parseFraction "24000/1001" = Except.ok (24000, 1001) ∧ (1001 : ℤ) ≠ 0 ∧
    (computeFps "30/1" = Except.ok 30 ∧
     specsFromInfo (some [[("r_frame_rate", JVal.str "30/1")]])
       = Outcome.okJson ⟨none, none, 30, none, none, none, none⟩ ∧
     computeFps "24000/1001"
       = Except.ok (pyRound (((24000 : ℤ) : ℚ) / ((1001 : ℤ) : ℚ)))) :=
  ⟨rfl, by decide, c6_fps_rounded_quotient "24000/1001" 24000 1001 rfl (by decide)⟩

theorem specsStream_ne_nostream (vs : StreamObj) :
    specsStream vs ≠ Outcome.exc (PyExc.httpException 500 "No video stream found") := by
  unfold specsStream
  split
  · simp
  · split
    · next e he => rcases computeFps_error _ _ he with h | h <;> simp [h]
    · simp
  · simp

/-- Claim C9, counterexample: the "No video stream found" branch is also
reachable when the "streams" key is present — bound to a list whose first
element is an empty (falsy) stream object — so "reachable only when the
streams key is absent entirely" is false. -/
theorem c9_counterexample :
    (some [([] : StreamObj)] : Option (List StreamObj)) ≠ none ∧
    specsFromInfo (some [([] : StreamObj)])
      = Outcome.exc (PyExc.httpException 500 "No video stream found") :=
  ⟨by simp, rfl⟩

/-- Claim C9 as amended: a probe output whose "streams" key is bound to an
empty list makes `get_video_specs` raise an uncaught `IndexError`; and the
explicit "No video stream found" branch is reached exactly when the "streams"
key is absent entirely (so the default `[{}]` is used) or when the first
stream object is empty (falsy). -/
theorem c9_amended (info : Option (List StreamObj)) :
    specsFromInfo (some ([] : List StreamObj)) = Outcome.exc PyExc.indexError ∧
    (specsFromInfo info = Outcome.exc (PyExc.httpException 500 "No video stream found")
      ↔ info = none ∨ ∃ rest, info = some (([] : StreamObj) :: rest)) := by
  refine ⟨rfl, ?_⟩
  match info with
  | none => exact ⟨fun _ => Or.inl rfl, fun _ => rfl⟩
  | some [] =>
    constructor
    · intro h
      have h2 : Outcome.exc PyExc.indexError
          = Outcome.exc (PyExc.httpException 500 "No video stream found") := h
      exact absurd h2 (by simp)
    · rintro (h | ⟨rest, h⟩) <;> simp at h
  | some (([] : StreamObj) :: rest) =>
    exact ⟨fun _ => Or.inr ⟨rest, rfl⟩, fun _ => rfl⟩
  | some ((kv :: ks) :: rest) =>
    constructor
    · intro h
      have h2 : specsStream (kv :: ks)
          = Outcome.exc (PyExc.httpException 500 "No video stream found") := h
      exact absurd h2 (specsStream_ne_nostream _)
    · rintro (h | ⟨r, h⟩) <;> simp at h

/-- Claim C10: a probe output whose stream's `r_frame_rate` fraction has
denominator 0 (such as "30/0") makes the fps computation of
`get_video_specs` raise an uncaught `ZeroDivisionError` rather than return a
metadata record or a handled service error (no `HTTPException` detail is
produced). -/
theorem c10_zero_denominator (st : StreamObj) (rs : String) (num : ℤ)
    (h1 : st.lookup "r_frame_rate" = some (JVal.str rs))
    (h2 : st.isEmpty = false)
    (h3 : parseFraction rs = Except.ok (num, 0)) :
    specsFromInfo (some [st]) = Outcome.exc PyExc.zeroDivisionError ∧
    (∀ video : Upload, ∀ sout serr : String,
      (get_video_specs video ⟨0, sout, serr⟩ (some [st])).1
        = Outcome.exc PyExc.zeroDivisionError) ∧
    detailOf (Outcome.exc PyExc.zeroDivisionError) = none := by
  have hc : computeFps rs = Except.error PyExc.zeroDivisionError := by
    unfold computeFps
    rw [h3]
    simp
  have hs : specsStream st = Outcome.exc PyExc.zeroDivisionError := by
    unfold specsStream
    rw [h1]
    simp [hc]
  have hmain : specsFromInfo (some [st]) = Outcome.exc PyExc.zeroDivisionError := by
    show (if st.isEmpty then Outcome.exc (PyExc.httpException 500 "No video stream found")
      else specsStream st) = Outcome.exc PyExc.zeroDivisionError
    rw [h2]
    simpa using hs
  refine ⟨hmain, ?_, rfl⟩
  intro video sout serr
  show specsFromInfo (some [st]) = Outcome.exc PyExc.zeroDivisionError
  exact hmain

theorem c10_zero_denominator_witness :
    ([("r_frame_rate", JVal.str "30/0")] : StreamObj).lookup "r_frame_rate"
      = some (JVal.str "30/0") ∧
    ([("r_frame_rate", JVal.str "30/0")] : StreamObj).isEmpty = false ∧
    parseFraction "30/0" = Except.ok (30, 0) ∧
    (specsFromInfo (some [[("r_frame_rate", JVal.str "30/0")]])
        = Outcome.exc PyExc.zeroDivisionError ∧
     (∀ video : Upload, ∀ sout serr : String,
       (get_video_specs video ⟨0, sout, serr⟩
           (some [[("r_frame_rate", JVal.str "30/0")]])).1
         = Outcome.exc PyExc.zeroDivisionError) ∧
     detailOf (Outcome.exc PyExc.zeroDivisionError) = none) :=
  ⟨rfl, rfl, rfl, c10_zero_denominator [("r_frame_rate", JVal.str "30/0")] "30/0" 30 rfl rfl rfl⟩

theorem thumbnailTimestamps_eq (d : ℚ) (n : ℕ) :
    thumbnailTimestamps d n
      = (List.range' 1 n).map (fun i : ℕ => d / ((n : ℚ) + 1) * (i : ℚ)) := rfl

theorem thumbnailTimestamps_length (d : ℚ) (n : ℕ) :
    (thumbnailTimestamps d n).length = n := by
  rw [thumbnailTimestamps_eq, List.length_map]
  simp

theorem thumbnailTimestamps_getD (d : ℚ) (n i : ℕ) (h : i < n) :
    (thumbnailTimestamps d n).getD i 0 = ((i : ℚ) + 1) * (d / ((n : ℚ) + 1)) := by
  rw [thumbnailTimestamps_eq]
  have hlen : i < ((List.range' 1 n).map (fun j : ℕ => d / ((n : ℚ) + 1) * (j : ℚ))).length := by
    rw [List.length_map]
    simpa using h
  rw [List.getD_eq_getElem _ _ hlen, List.getElem_map, List.getElem_range']
  push_cast
  ring

theorem thumbnailTimestamps_mem (d : ℚ) (n : ℕ) (hd : 0 < d) (t : ℚ)
    (ht : t ∈ thumbnailTimestamps d n) : 0 < t ∧ t < d := by
  rw [thumbnailTimestamps_eq] at ht
  simp only [List.mem_map, List.mem_range'_1] at ht
  obtain ⟨j, ⟨hj1, hj2⟩, rfl⟩ := ht
  have hden : (0 : ℚ) < (n : ℚ) + 1 := by positivity
  have hx : 0 < d / ((n : ℚ) + 1) := by positivity
  constructor
  · have hj : (0 : ℚ) < (j : ℚ) := by exact_mod_cast hj1
    exact mul_pos hx hj
  · have hj2n : j < n + 1 := by omega
    have hjn : (j : ℚ) < (n : ℚ) + 1 := by exact_mod_cast hj2n
    calc d / ((n : ℚ) + 1) * (j : ℚ) < d / ((n : ℚ) + 1) * ((n : ℚ) + 1) :=
          mul_lt_mul_of_pos_left hjn hx
      _ = d := div_mul_cancel₀ d (ne_of_gt hden)

/-- Claim C7: for every video duration d > 0 and thumbnail count n ≥ 1, the
thumbnail-generation operation samples exactly n timestamps, the i-th
(0-based) equal to (i+1)·d/(n+1); all lie strictly between 0 and d, and the
gap between consecutive samples — and between the ends 0 and d and the
nearest sample — is always d/(n+1). -/
theorem c7_thumbnail_even_spacing (d : ℚ) (n : ℕ) (hd : 0 < d) (hn : 1 ≤ n) :
    (thumbnailTimestamps d n).length = n ∧
    (∀ i : ℕ, i < n →
      (thumbnailTimestamps d n).getD i 0 = ((i : ℚ) + 1) * (d / ((n : ℚ) + 1))) ∧
    (∀ t ∈ thumbnailTimestamps d n, 0 < t ∧ t < d) ∧
    (∀ i : ℕ, i + 1 < n →
      (thumbnailTimestamps d n).getD (i + 1) 0 - (thumbnailTimestamps d n).getD i 0
        = d / ((n : ℚ) + 1)) ∧
    (thumbnailTimestamps d n).getD 0 0 - 0 = d / ((n : ℚ) + 1) ∧
    d - (thumbnailTimestamps d n).getD (n - 1) 0 = d / ((n : ℚ) + 1) := by
  refine ⟨thumbnailTimestamps_length d n,
    fun i hi => thumbnailTimestamps_getD d n i hi,
    fun t ht => thumbnailTimestamps_mem d n hd t ht, ?_, ?_, ?_⟩
  · intro i hi
    rw [thumbnailTimestamps_getD d n (i + 1) hi, thumbnailTimestamps_getD d n i (by omega)]
    push_cast
    ring
  · rw [thumbnailTimestamps_getD d n 0 (by omega)]
    push_cast
    ring
  · rw [thumbnailTimestamps_getD d n (n - 1) (by omega)]
    have hcast : (((n - 1 : ℕ)) : ℚ) = (n : ℚ) - 1 := by
      push_cast [hn]
      ring
    rw [hcast]
    have hden : ((n : ℚ) + 1) ≠ 0 := by positivity
    field_simp
    ring

theorem c7_thumbnail_even_spacing_witness :
    (0 : ℚ) < 10 ∧ (1 : ℕ) ≤ 3 ∧
    ((thumbnailTimestamps 10 3).length = 3 ∧
     (∀ i : ℕ, i < 3 →
       (thumbnailTimestamps 10 3).getD i 0 = ((i : ℚ) + 1) * (10 / (((3 : ℕ) : ℚ) + 1))) ∧
     (∀ t ∈ thumbnailTimestamps 10 3, 0 < t ∧ t < 10) ∧
     (∀ i : ℕ, i + 1 < 3 →
       (thumbnailTimestamps 10 3).getD (i + 1) 0 - (thumbnailTimestamps 10 3).getD i 0
         = 10 / (((3 : ℕ) : ℚ) + 1)) ∧
     (thumbnailTimestamps 10 3).getD 0 0 - 0 = 10 / (((3 : ℕ) : ℚ) + 1) ∧
     10 - (thumbnailTimestamps 10 3).getD (3 - 1) 0 = 10 / (((3 : ℕ) : ℚ) + 1)) :=
  ⟨by decide, by decide, c7_thumbnail_even_spacing 10 3 (by decide) (by decide)⟩

theorem digit_char_isDigit (m : ℕ) (h : m < 10) : (Char.ofNat (48 + m)).isDigit = true := by
  interval_cases m <;> decide

theorem natDigitsAux_ne_nil (fuel n : ℕ) (acc : List Char) (h : acc ≠ [] ∨ 1 ≤ fuel) :
    natDigitsAux fuel n acc ≠ [] := by
  induction fuel generalizing n acc with
  | zero =>
    rcases h with h | h
    · simpa [natDigitsAux] using h
    · omega
  | succ fuel ih =>
    unfold natDigitsAux
    split
    · simp
    · exact ih (n / 10) _ (Or.inl (by simp))

theorem natDigits_ne_nil (n : ℕ) : natDigits n ≠ [] :=
  natDigitsAux_ne_nil (n + 1) n [] (Or.inr (by omega))

theorem natDigitsAux_digits (fuel n : ℕ) (acc : List Char)
    (hacc : ∀ c ∈ acc, c.isDigit = true) :
    ∀ c ∈ natDigitsAux fuel n acc, c.isDigit = true := by
  induction fuel generalizing n acc with
  | zero => simpa [natDigitsAux] using hacc
  | succ fuel ih =>
    unfold natDigitsAux
    split
    · next hlt =>
      intro c hc
      rcases List.mem_cons.mp hc with rfl | hc
      · exact digit_char_isDigit n hlt
      · exact hacc c hc
    · apply ih
      intro c hc
      rcases List.mem_cons.mp hc with rfl | hc
      · exact digit_char_isDigit (n % 10) (by omega)
      · exact hacc c hc

theorem natDigits_digits (n : ℕ) : ∀ c ∈ natDigits n, c.isDigit = true :=
  natDigitsAux_digits (n + 1) n [] (by simp)

theorem framePath_eq_sprintf (i : ℕ) :
    framePath i = "frame_" ++ sprintf06d i ++ ".jpg" := by
  unfold framePath sprintf06d pyStrNat pyZfill
  cases hnd : natDigits i with
  | nil => exact absurd hnd (natDigits_ne_nil i)
  | cons c cs =>
    have hd : c.isDigit = true := by
      refine natDigits_digits i c ?_
      rw [hnd]
      exact List.mem_cons_self c cs
    have hsign : ¬(c = '+' ∨ c = '-') := by
      rintro (rfl | rfl) <;> simp at hd
    by_cases hlen : 6 ≤ (c :: cs).length
    · rw [if_pos (show 6 ≤ (String.mk (c :: cs)).length from hlen)]
      rw [show (6 : ℕ) - (c :: cs).length = 0 from by omega]
      simp
    · rw [if_neg (show ¬ 6 ≤ (String.mk (c :: cs)).length from hlen)]
      show "frame_" ++ (if c = '+' ∨ c = '-'
          then String.mk (c :: (List.replicate (6 - (String.mk (c :: cs)).length) '0' ++ cs))
          else String.mk (List.replicate (6 - (String.mk (c :: cs)).length) '0'
            ++ (String.mk (c :: cs)).data)) ++ ".jpg"
        = "frame_" ++ String.mk (List.replicate (6 - (c :: cs).length) '0' ++ c :: cs) ++ ".jpg"
      rw [if_neg hsign]
      rfl

theorem stagedWrites_withTempDir (b : Outcome × List Effect) :
    stagedWrites (withTempDir b).2 = stagedWrites b.2 := by
  simp [withTempDir, stagedWrites]

theorem stagedWrites_stage (frames : List Upload) :
    stagedWrites (frames.enum.map (fun p => Effect.writeFile (framePath p.1) p.2.content))
      = frames.enum.map (fun pr => (framePath pr.1, pr.2.content)) := by
  induction frames.enum with
  | nil => rfl
  | cons p l ih =>
    simp only [List.map_cons, stagedWrites, List.filterMap_cons] at ih ⊢
    rw [ih]

/-- Claim C8: the frames-to-video operation stages the i-th uploaded frame
(0-based, in supplied order) under the name `frame_` followed by i
zero-padded to six digits, and its encoder invocation carries the matching
`frame_%06d.jpg` input pattern — each staged name is exactly the pattern's
expansion at index i, so the images enter the video in supplied order. -/
theorem c8_frame_staging_order (frames : List Upload) (fps : ℤ) (p : ProcOut) (ob : String) :
    stagedWrites (combine_frames_to_video frames fps p ob).2
      = frames.enum.map (fun pr => (framePath pr.1, pr.2.content)) ∧
    (∃ pre post, combineCmd fps = pre ++ ["-i", "frame_%06d.jpg"] ++ post) ∧
    (∀ i : ℕ, framePath i = "frame_" ++ sprintf06d i ++ ".jpg") := by
  refine ⟨?_, ⟨["ffmpeg", "-framerate", toString fps],
    ["-c:v", "libx264", "-preset", "slow", "-crf", "18", "-pix_fmt", "yuv420p",
      "-movflags", "+faststart", "-tune", "film", "output.mp4"], rfl⟩,
    framePath_eq_sprintf⟩
  unfold combine_frames_to_video
  split <;> rw [stagedWrites_withTempDir] <;>
    simpa [stagedWrites, List.filterMap_append] using stagedWrites_stage frames
